import Mathlib

/-
Shallow embedding of the volume/mute control logic of the
Infosys_Springboard_Gesture_Controlled_Volume repository.

Levels are modelled as exact rationals (the Python sources use floats but all
constants involved, 0.05, 0.005, 0.5, percent steps of 5, are exact in the
intended real-number semantics of the spec).  A COM endpoint-volume interface
is modelled as a record holding the true device level and mute flag together
with flags saying which of its four calls raises; the raw calls return
Except, and each Python try/except call site is translated to an explicit
match on that Except.  GUI glue (labels, sliders, bindings, key codes) is not
part of the model; the Kivy properties volume_scalar and is_muted form the
cached widget state.
-/

namespace VolumeRepo

/-- A backend IAudioEndpointVolume interface: the true device state plus, for
each of the four COM calls, whether that call currently raises (device
unavailable, interface released). -/
structure Endpoint where
  level : ℚ
  muted : Bool
  getLevelRaises : Bool := false
  setLevelRaises : Bool := false
  getMuteRaises : Bool := false
  setMuteRaises : Bool := false
deriving DecidableEq, Repr

/-- Raw COM call GetMasterVolumeLevelScalar: returns the device level or raises. -/
def Endpoint.GetMasterVolumeLevelScalar (e : Endpoint) : Except Unit ℚ :=
  if e.getLevelRaises then .error () else .ok e.level

/-- Raw COM call SetMasterVolumeLevelScalar: stores the given level or raises. -/
def Endpoint.SetMasterVolumeLevelScalar (e : Endpoint) (l : ℚ) : Except Unit Endpoint :=
  if e.setLevelRaises then .error () else .ok { e with level := l }

/-- Raw COM call GetMute: returns 1 when muted, 0 when not, or raises. -/
def Endpoint.GetMute (e : Endpoint) : Except Unit Int :=
  if e.getMuteRaises then .error () else .ok (if e.muted then 1 else 0)

/-- Raw COM call SetMute: stores the given mute integer or raises. -/
def Endpoint.SetMute (e : Endpoint) (m : Int) : Except Unit Endpoint :=
  if e.setMuteRaises then .error () else .ok { e with muted := m == 1 }

namespace MasterAudio

/-- VOLUME_INTERFACE of masterAudioContolKivy.py: either a real endpoint
interface or the fallback MockVolume object returned by get_volume_interface
when accessing the audio device fails. -/
inductive VolumeInterface where
  | real (e : Endpoint)
  | mock
deriving DecidableEq, Repr

/-- Dispatch of GetMasterVolumeLevelScalar: MockVolume always returns 0.5. -/
def VolumeInterface.GetMasterVolumeLevelScalar : VolumeInterface → Except Unit ℚ
  | .real e => e.GetMasterVolumeLevelScalar
  | .mock => .ok (1/2)

/-- Dispatch of SetMasterVolumeLevelScalar: MockVolume ignores the write. -/
def VolumeInterface.SetMasterVolumeLevelScalar : VolumeInterface → ℚ → Except Unit VolumeInterface
  | .real e, l => (e.SetMasterVolumeLevelScalar l).map VolumeInterface.real
  | .mock, _ => .ok .mock

/-- Dispatch of GetMute: MockVolume always returns 0. -/
def VolumeInterface.GetMute : VolumeInterface → Except Unit Int
  | .real e => e.GetMute
  | .mock => .ok 0

/-- Dispatch of SetMute: MockVolume ignores the write. -/
def VolumeInterface.SetMute : VolumeInterface → Int → Except Unit VolumeInterface
  | .real e, m => (e.SetMute m).map VolumeInterface.real
  | .mock, _ => .ok .mock

/-- get_volume_interface: returns the speakers endpoint, or the MockVolume
fallback when accessing the audio device raises (deviceOk = false). -/
def get_volume_interface (deviceOk : Bool) (speakers : Endpoint) : VolumeInterface :=
  if deviceOk then .real speakers else .mock

/-- get_current_volume_scalar: reads the interface level, returning 0.0 when
the call raises. -/
def get_current_volume_scalar (vi : VolumeInterface) : ℚ :=
  match vi.GetMasterVolumeLevelScalar with
  | .ok l => l
  | .error _ => 0

/-- set_volume_scalar: writes the level; a raise is caught and printed, leaving
the interface state unchanged. -/
def set_volume_scalar (vi : VolumeInterface) (level_scalar : ℚ) : VolumeInterface :=
  match vi.SetMasterVolumeLevelScalar level_scalar with
  | .ok vi2 => vi2
  | .error _ => vi

/-- get_mute_status: GetMute() == 1, returning False when the call raises. -/
def get_mute_status (vi : VolumeInterface) : Bool :=
  match vi.GetMute with
  | .ok m => m == 1
  | .error _ => false

/-- set_mute_status: SetMute(1 if is_muted else 0); a raise is caught and
printed, leaving the interface state unchanged. -/
def set_mute_status (vi : VolumeInterface) (is_muted : Bool) : VolumeInterface :=
  match vi.SetMute (if is_muted then 1 else 0) with
  | .ok vi2 => vi2
  | .error _ => vi

/-- The volume step for key presses (5%). -/
def VOLUME_STEP : ℚ := 5/100

/-- The cached state of VolumeControlWidget: the Kivy properties
volume_scalar and is_muted.  Labels and status strings are derived display
text and are not part of the state. -/
structure VolumeControlWidget where
  volume_scalar : ℚ
  is_muted : Bool
deriving DecidableEq, Repr

/-- The widget state at startup: both properties are initialised from the
backend via the fallback-wrapped readers. -/
def initial_widget (vi : VolumeInterface) : VolumeControlWidget :=
  { volume_scalar := get_current_volume_scalar vi
    is_muted := get_mute_status vi }

/-- update_volume_from_gui: slider callback; writes the slider value to the
backend and stores it in the cache, with no clamping of its own. -/
def update_volume_from_gui (w : VolumeControlWidget) (vi : VolumeInterface)
    (value : ℚ) : VolumeControlWidget × VolumeInterface :=
  let vi2 := set_volume_scalar vi value
  ({ w with volume_scalar := value }, vi2)

/-- update_volume_from_key: adds the step to the cached level, clamps with
max(0.0, min(1.0, _)), writes the result to the backend and stores it. -/
def update_volume_from_key (w : VolumeControlWidget) (vi : VolumeInterface)
    (change_scalar : ℚ) : VolumeControlWidget × VolumeInterface :=
  let current_scalar := w.volume_scalar
  let new_scalar := max 0 (min 1 (current_scalar + change_scalar))
  let vi2 := set_volume_scalar vi new_scalar
  ({ w with volume_scalar := new_scalar }, vi2)

/-- toggle_mute: inverts the cached mute flag, writes it to the backend and
stores it. -/
def toggle_mute (w : VolumeControlWidget) (vi : VolumeInterface) :
    VolumeControlWidget × VolumeInterface :=
  let new_mute_status := !w.is_muted
  let vi2 := set_mute_status vi new_mute_status
  ({ w with is_muted := new_mute_status }, vi2)

/-- update_label: the percent shown in the volume label, the value formatted
with .0f, i.e. value*100 rounded to an integer. -/
def update_label (value : ℚ) : ℤ := round (value * 100)

/-- check_external_change: the 0.25s poll; reads the backend level and mute
through the fallback-wrapped readers and reconciles each into the cache
independently: the level only when it differs by more than 0.005, the mute
flag whenever it differs.  The Python method always returns None; its
observable effect is the cache update (Kivy property events fire on it). -/
def check_external_change (w : VolumeControlWidget) (vi : VolumeInterface) :
    VolumeControlWidget :=
  let current_external_scalar := get_current_volume_scalar vi
  let current_external_mute := get_mute_status vi
  let w1 :=
    if |w.volume_scalar - current_external_scalar| > 5/1000 then
      { w with volume_scalar := current_external_scalar }
    else w
  if w1.is_muted != current_external_mute then
    { w1 with is_muted := current_external_mute }
  else w1

end MasterAudio

namespace Teams3Mute

/-- Hotkey volume step, in percent. -/
def STEP_PERCENT : ℚ := 5

/-- _percent_to_scalar of teams3mute.py: max(0.0, min(1.0, p / 100.0)). -/
def _percent_to_scalar (p : ℚ) : ℚ := max 0 (min 1 (p / 100))

/-- _scalar_to_percent of teams3mute.py: max(0.0, min(100.0, s * 100.0)). -/
def _scalar_to_percent (s : ℚ) : ℚ := max 0 (min 100 (s * 100))

/-- increase_volume of teams3mute.py: acquires a fresh interface for the
default capture device (modelled by the vol argument), reads its current
level, converts to percent, adds the 5% step, clamps at 100, converts back
and writes.  The ensure_com wrapper catches any raise, abandoning the
handler; the second component is the percent printed on success (None when
the handler was abandoned before the print). -/
def increase_volume (vol : Endpoint) : Endpoint × Option ℚ :=
  match vol.GetMasterVolumeLevelScalar with
  | .error _ => (vol, none)
  | .ok cur =>
    let cur_pct := _scalar_to_percent cur
    let new_pct := min 100 (cur_pct + STEP_PERCENT)
    match vol.SetMasterVolumeLevelScalar (_percent_to_scalar new_pct) with
    | .error _ => (vol, none)
    | .ok vol2 => (vol2, some new_pct)

/-- toggle_mute of teams3mute.py: reads bool(GetMute()), inverts it and writes
it back; the second component is the new mute state printed on success. -/
def toggle_mute (vol : Endpoint) : Endpoint × Option Bool :=
  match vol.GetMute with
  | .error _ => (vol, none)
  | .ok cur =>
    let cur_mute := cur != 0
    let new_mute := !cur_mute
    match vol.SetMute (if new_mute then 1 else 0) with
    | .error _ => (vol, none)
    | .ok vol2 => (vol2, some new_mute)

end Teams3Mute

namespace Teams3Mic

/-- _scalar_to_percent of teams3micKivy.py: max(0.0, min(100.0, s * 100.0)). -/
def _scalar_to_percent (s : ℚ) : ℚ := max 0 (min 100 (s * 100))

/-- _get_new_interface: activates an endpoint interface for the default
capture device; raises when no device is available (default_capture = none). -/
def _get_new_interface (default_capture : Option Endpoint) : Except Unit Endpoint :=
  match default_capture with
  | some e => .ok e
  | none => .error ()

/-- The state MicApp keeps between polls: the cached interface, None when the
startup connection attempt (or a reconnect) failed. -/
structure MicApp where
  cached_interface : Option Endpoint
deriving DecidableEq, Repr

/-- check_mic_status: the 0.2s poll.  Returns immediately when no interface is
cached.  Otherwise it reads level and mute from the cached interface and, on
success, updates the UI (second component: clamped percent and mute flag);
when a read raises it tries to reconnect once via _get_new_interface, keeping
the old interface when that too raises. -/
def check_mic_status (app : MicApp) (default_capture : Option Endpoint) :
    MicApp × Option (ℚ × Bool) :=
  match app.cached_interface with
  | none => (app, none)
  | some vol =>
    match vol.GetMasterVolumeLevelScalar with
    | .error _ =>
      match _get_new_interface default_capture with
      | .ok e => ({ cached_interface := some e }, none)
      | .error _ => (app, none)
    | .ok s =>
      match vol.GetMute with
      | .error _ =>
        match _get_new_interface default_capture with
        | .ok e => ({ cached_interface := some e }, none)
        | .error _ => (app, none)
      | .ok m => (app, some (_scalar_to_percent s, m != 0))

end Teams3Mic

open MasterAudio

/-- A backend endpoint on which every call raises, at true level 0.7 and
muted; a concrete device-failure scenario used in witnesses below. -/
def brokenEndpoint : Endpoint :=
  { level := 7/10
    muted := true
    getLevelRaises := true
    setLevelRaises := true
    getMuteRaises := true
    setMuteRaises := true }

/-- keySteps: n keyboard volume-up presses in sequence, each applying
update_volume_from_key with the +VOLUME_STEP change. -/
def keySteps (w : VolumeControlWidget) (vi : VolumeInterface) :
    Nat → VolumeControlWidget × VolumeInterface
  | 0 => (w, vi)
  | n+1 =>
    let p := keySteps w vi n
    update_volume_from_key p.1 p.2 VOLUME_STEP

/-! Helper lemmas about the clamp max(0, min(1, x)) and the wrapped backend
calls, shared by several of the theorems below. -/

lemma clamp01_nonneg (x : ℚ) : 0 ≤ max 0 (min 1 x) := le_max_left 0 _

lemma clamp01_le_one (x : ℚ) : max 0 (min 1 x) ≤ 1 :=
  max_le (by norm_num) (min_le_left 1 x)

lemma update_volume_from_key_volume (w : VolumeControlWidget)
    (vi : VolumeInterface) (c : ℚ) :
    (update_volume_from_key w vi c).1.volume_scalar =
      max 0 (min 1 (w.volume_scalar + c)) := rfl

lemma get_current_volume_scalar_real (e : Endpoint)
    (h : e.getLevelRaises = false) :
    get_current_volume_scalar (.real e) = e.level := by
  simp [get_current_volume_scalar, VolumeInterface.GetMasterVolumeLevelScalar,
    Endpoint.GetMasterVolumeLevelScalar, h]

lemma get_mute_status_real (e : Endpoint) (h : e.getMuteRaises = false) :
    get_mute_status (.real e) = e.muted := by
  cases hm : e.muted <;>
    simp [get_mute_status, VolumeInterface.GetMute, Endpoint.GetMute, h, hm]

lemma set_volume_scalar_real (e : Endpoint) (l : ℚ)
    (h : e.setLevelRaises = false) :
    set_volume_scalar (.real e) l = .real { e with level := l } := by
  simp [set_volume_scalar, VolumeInterface.SetMasterVolumeLevelScalar,
    Endpoint.SetMasterVolumeLevelScalar, h, Except.map]

lemma set_volume_scalar_real_raises (e : Endpoint) (l : ℚ)
    (h : e.setLevelRaises = true) :
    set_volume_scalar (.real e) l = .real e := by
  simp [set_volume_scalar, VolumeInterface.SetMasterVolumeLevelScalar,
    Endpoint.SetMasterVolumeLevelScalar, h, Except.map]

lemma get_current_volume_scalar_real_raises (e : Endpoint)
    (h : e.getLevelRaises = true) :
    get_current_volume_scalar (.real e) = 0 := by
  simp [get_current_volume_scalar, VolumeInterface.GetMasterVolumeLevelScalar,
    Endpoint.GetMasterVolumeLevelScalar, h]

lemma get_mute_status_real_raises (e : Endpoint) (h : e.getMuteRaises = true) :
    get_mute_status (.real e) = false := by
  simp [get_mute_status, VolumeInterface.GetMute, Endpoint.GetMute, h]

lemma set_mute_status_real_raises (e : Endpoint) (m : Bool)
    (h : e.setMuteRaises = true) :
    set_mute_status (.real e) m = .real e := by
  simp [set_mute_status, VolumeInterface.SetMute, Endpoint.SetMute, h,
    Except.map]

lemma update_volume_from_gui_set_raises (w : VolumeControlWidget) (e : Endpoint)
    (value : ℚ) (h : e.setLevelRaises = true) :
    update_volume_from_gui w (.real e) value =
      ({ w with volume_scalar := value }, .real e) := by
  unfold update_volume_from_gui
  rw [set_volume_scalar_real_raises e _ h]

/-- Characterisation of the poll: with working backend reads, the cached level
is replaced exactly when it differs from the backend level by more than 0.005,
and the cached mute flag always ends equal to the backend one. -/
lemma check_external_change_real (w : VolumeControlWidget) (e : Endpoint)
    (hg : e.getLevelRaises = false) (hm : e.getMuteRaises = false) :
    check_external_change w (.real e) =
      ⟨if |w.volume_scalar - e.level| > 5/1000 then e.level else w.volume_scalar,
        e.muted⟩ := by
  obtain ⟨wv, wm⟩ := w
  simp only [check_external_change, get_current_volume_scalar_real e hg,
    get_mute_status_real e hm]
  by_cases hd : |wv - e.level| > 5/1000
  · simp only [if_pos hd]
    cases wm <;> cases he : e.muted <;> simp
  · simp only [if_neg hd]
    cases wm <;> cases he : e.muted <;> simp

/-- Characterisation of the poll when both backend reads raise: the wrapped
readers fall back to level 0.0 and mute False, and the poll reconciles those
fallback values into the cache. -/
lemma check_external_change_read_raises (w : VolumeControlWidget) (e : Endpoint)
    (h1 : e.getLevelRaises = true) (h2 : e.getMuteRaises = true) :
    check_external_change w (.real e) =
      ⟨if |w.volume_scalar| > 5/1000 then 0 else w.volume_scalar, false⟩ := by
  obtain ⟨wv, wm⟩ := w
  simp only [check_external_change, get_current_volume_scalar_real_raises e h1,
    get_mute_status_real_raises e h2, sub_zero]
  by_cases hd : |wv| > 5/1000
  · simp only [if_pos hd]
    cases wm <;> simp
  · simp only [if_neg hd]
    cases wm <;> simp

lemma toggle_mute_set_raises (w : VolumeControlWidget) (e : Endpoint)
    (h : e.setMuteRaises = true) :
    toggle_mute w (.real e) = ({ w with is_muted := !w.is_muted }, .real e) := by
  simp only [toggle_mute]
  rw [set_mute_status_real_raises e _ h]

/-- C10: when accessing the audio device fails at startup, get_volume_interface
returns the MockVolume fallback: its reads give level 0.5 and unmuted, every
set on it is a no-op, the initial cached state is level 0.5 and not muted, and
user commands leave the mock unchanged, so they have no external effect. -/
theorem C10_mock_fallback (speakers : Endpoint) (w : VolumeControlWidget)
    (l : ℚ) (m : Bool) :
    get_volume_interface false speakers = .mock ∧
    get_current_volume_scalar .mock = 1/2 ∧
    get_mute_status .mock = false ∧
    set_volume_scalar .mock l = .mock ∧
    set_mute_status .mock m = .mock ∧
    initial_widget .mock = ⟨1/2, false⟩ ∧
    update_volume_from_gui w .mock l = ({ w with volume_scalar := l }, .mock) ∧
    toggle_mute w .mock = ({ w with is_muted := !w.is_muted }, .mock) :=
  ⟨rfl, rfl, rfl, rfl, rfl, rfl, rfl, rfl⟩

/-- C1 counterexample: the slider path update_volume_from_gui does not clamp:
requesting level 1.5 from cached level 0.5 stores 1.5 in the cache and writes
1.5 to the backend, outside [0.0, 1.0]. -/
theorem C1_counterexample :
    (update_volume_from_gui ⟨1/2, false⟩ (.real { level := 1/2, muted := false })
        (3/2)).1.volume_scalar = 3/2 ∧
    (update_volume_from_gui ⟨1/2, false⟩ (.real { level := 1/2, muted := false })
        (3/2)).2 = .real { level := 3/2, muted := false } ∧
    ¬ ((3/2 : ℚ) ≤ 1) :=
  ⟨rfl, rfl, by norm_num⟩

/-- C1 (amended): the keyboard path clamps, so its stored and written level is
always in [0.0, 1.0]; the slider path stores and writes the requested value
unclamped, hence its result lies in [0.0, 1.0] exactly for requests already in
that range (which the slider widget, built with min 0 and max 1, enforces). -/
theorem C1_clamped_amended (w : VolumeControlWidget) (vi : VolumeInterface)
    (change_scalar : ℚ) (e : Endpoint) (hs : e.setLevelRaises = false)
    (value : ℚ) (hv0 : 0 ≤ value) (hv1 : value ≤ 1) :
    (0 ≤ (update_volume_from_key w vi change_scalar).1.volume_scalar ∧
      (update_volume_from_key w vi change_scalar).1.volume_scalar ≤ 1) ∧
    (update_volume_from_key w (.real e) change_scalar).2 =
      .real { e with level := max 0 (min 1 (w.volume_scalar + change_scalar)) } ∧
    ((update_volume_from_gui w vi value).1.volume_scalar = value ∧
      0 ≤ (update_volume_from_gui w vi value).1.volume_scalar ∧
      (update_volume_from_gui w vi value).1.volume_scalar ≤ 1) := by
  refine ⟨⟨?_, ?_⟩, ?_, rfl, hv0, hv1⟩
  · rw [update_volume_from_key_volume]; exact clamp01_nonneg _
  · rw [update_volume_from_key_volume]; exact clamp01_le_one _
  · show (set_volume_scalar (.real e) _) = _
    rw [set_volume_scalar_real e _ hs]

/-- C1 witness: the amended statement at cached level 0.5, keyboard change
+0.75 (clamped to 1) and slider value 0.5. -/
theorem C1_witness :
    ((0 ≤ (update_volume_from_key ⟨1/2, false⟩ .mock (3/4)).1.volume_scalar ∧
      (update_volume_from_key ⟨1/2, false⟩ .mock (3/4)).1.volume_scalar ≤ 1) ∧
    (update_volume_from_key ⟨1/2, false⟩
        (.real { level := 1/2, muted := false }) (3/4)).2 =
      .real { level := max 0 (min 1 ((1:ℚ)/2 + 3/4)), muted := false } ∧
    ((update_volume_from_gui ⟨1/2, false⟩ .mock (1/2)).1.volume_scalar = 1/2 ∧
      0 ≤ (update_volume_from_gui ⟨1/2, false⟩ .mock (1/2)).1.volume_scalar ∧
      (update_volume_from_gui ⟨1/2, false⟩ .mock (1/2)).1.volume_scalar ≤ 1)) :=
  C1_clamped_amended ⟨1/2, false⟩ .mock (3/4) { level := 1/2, muted := false }
    rfl (1/2) (by norm_num) (by norm_num)

/-- C3 counterexample: with a backend whose write raises, set_level(0.3) from
cached level 0.5 lets no exception escape and leaves the backend at 0.5, but
the cached level does not remain at its pre-call value: it becomes 0.3. -/
theorem C3_counterexample :
    (update_volume_from_gui ⟨1/2, false⟩
        (.real { level := 1/2, muted := false, setLevelRaises := true })
        (3/10)).1.volume_scalar = 3/10 ∧
    (update_volume_from_gui ⟨1/2, false⟩
        (.real { level := 1/2, muted := false, setLevelRaises := true })
        (3/10)).2 =
      .real { level := 1/2, muted := false, setLevelRaises := true } ∧
    (3/10 : ℚ) ≠ 1/2 :=
  ⟨rfl, rfl, by norm_num⟩

/-- C3 (amended): if the backend write raises during set_level, no exception
escapes (the wrapper catches it) and the backend is left unchanged, but the
cached level is still updated to the requested value instead of being
retained at its pre-call value. -/
theorem C3_amended (w : VolumeControlWidget) (e : Endpoint)
    (h : e.setLevelRaises = true) (value : ℚ) :
    update_volume_from_gui w (.real e) value =
      ({ w with volume_scalar := value }, .real e) := by
  unfold update_volume_from_gui
  rw [set_volume_scalar_real_raises e _ h]

/-- C3 witness: the amended statement at cached level 0.5, requested level 0.3
and a backend whose write raises. -/
theorem C3_witness :
    update_volume_from_gui ⟨1/2, false⟩
        (.real { level := 1/2, muted := false, setLevelRaises := true })
        (3/10) =
      (⟨3/10, false⟩,
        .real { level := 1/2, muted := false, setLevelRaises := true }) :=
  C3_amended ⟨1/2, false⟩
    { level := 1/2, muted := false, setLevelRaises := true } rfl (3/10)

/-- C2 counterexample: when the backend level differs from the cache by at most
0.005 but the mute flag differs, the poll updates only the mute flag: from
cached (0.003, unmuted) and backend (0.0, muted) the new cache is
(0.003, muted), not the backend state (0.0, muted), so the cache is not
updated to the backend state as claimed. -/
theorem C2_counterexample :
    check_external_change ⟨3/1000, false⟩ (.real { level := 0, muted := true }) =
      ⟨3/1000, true⟩ ∧
    (3/1000 : ℚ) ≠ 0 := by
  constructor
  · rw [check_external_change_real _ _ rfl rfl]
    norm_num [abs_le]
  · norm_num

/-- C2 (amended): the poll reconciles level and mute independently: the cached
level is replaced by the backend level exactly when they differ by more than
0.005, while the cached mute flag always ends equal to the backend one; hence
the cache is untouched when the level is within 0.005 and the mute flags
agree, and from cached (0.5, unmuted) with backend (0.7, unmuted) the next
poll updates the cache to (0.7, unmuted). -/
theorem C2_poll_amended (w : VolumeControlWidget) (e : Endpoint)
    (hg : e.getLevelRaises = false) (hm : e.getMuteRaises = false) :
    check_external_change w (.real e) =
      ⟨if |w.volume_scalar - e.level| > 5/1000 then e.level else w.volume_scalar,
        e.muted⟩ ∧
    (|w.volume_scalar - e.level| ≤ 5/1000 → w.is_muted = e.muted →
      check_external_change w (.real e) = w) ∧
    check_external_change ⟨1/2, false⟩ (.real { level := 7/10, muted := false }) =
      ⟨7/10, false⟩ := by
  obtain ⟨wv, wm⟩ := w
  refine ⟨check_external_change_real _ e hg hm, ?_, ?_⟩
  · intro hle hmeq
    rw [check_external_change_real _ e hg hm, if_neg (not_lt.mpr hle)]
    rw [← hmeq]
  · rw [check_external_change_real _ _ rfl rfl]
    norm_num [lt_abs]

/-- C2 witness: the amended statement at the concrete scenario cached
(0.5, unmuted), backend (0.7, unmuted). -/
theorem C2_witness :
    check_external_change ⟨1/2, false⟩ (.real { level := 7/10, muted := false }) =
      ⟨7/10, false⟩ :=
  (C2_poll_amended ⟨1/2, false⟩ { level := 7/10, muted := false } rfl rfl).2.2

/-- C4 counterexample: a backend read failure during a poll is caught but the
operation is not a no-op: get_current_volume_scalar falls back to 0.0, which
the poll takes for the external level, so from cached (0.5, unmuted) the
cached level becomes 0.0 instead of being retained. -/
theorem C4_counterexample :
    check_external_change ⟨1/2, false⟩
        (.real { level := 7/10, muted := false, getLevelRaises := true,
                 getMuteRaises := true }) =
      ⟨0, false⟩ ∧
    (0 : ℚ) ≠ 1/2 := by
  constructor
  · rw [check_external_change_read_raises _ _ rfl rfl]
    norm_num [lt_abs]
  · norm_num

/-- C4 (amended): backend failures are caught at the call site and never
propagate, but the operation is not always a no-op on the cache: a failed
level read yields the fallback 0.0 and a failed mute read yields False, which
the poll reconciles into the cache like real backend state, and a failed write
leaves the backend unchanged while the cache is still updated to the requested
value. -/
theorem C4_failure_amended (w : VolumeControlWidget) (e : Endpoint) (value : ℚ) :
    (e.getLevelRaises = true → e.getMuteRaises = true →
      check_external_change w (.real e) =
        ⟨if |w.volume_scalar| > 5/1000 then 0 else w.volume_scalar, false⟩) ∧
    (e.setLevelRaises = true →
      update_volume_from_gui w (.real e) value =
        ({ w with volume_scalar := value }, .real e)) ∧
    (e.setMuteRaises = true →
      toggle_mute w (.real e) =
        ({ w with is_muted := !w.is_muted }, .real e)) :=
  ⟨fun h1 h2 => check_external_change_read_raises w e h1 h2,
    fun h => update_volume_from_gui_set_raises w e value h,
    fun h => toggle_mute_set_raises w e h⟩

/-- C4 witness: the read-failure conjunct of the amended statement at cached
(0.5, unmuted) and a backend on which every call raises. -/
theorem C4_witness :
    check_external_change ⟨1/2, false⟩ (.real brokenEndpoint) =
      ⟨if |(1:ℚ)/2| > 5/1000 then 0 else 1/2, false⟩ :=
  (C4_failure_amended ⟨1/2, false⟩ brokenEndpoint (3/20)).1 rfl rfl

lemma t3_toggle_mute_ok (e : Endpoint) (hg : e.getMuteRaises = false)
    (hs : e.setMuteRaises = false) :
    Teams3Mute.toggle_mute e = ({ e with muted := !e.muted }, some (!e.muted)) := by
  cases hm : e.muted <;>
    simp [Teams3Mute.toggle_mute, Endpoint.GetMute, Endpoint.SetMute, hg, hs, hm]

lemma t3_increase_volume_ok (e : Endpoint) (hg : e.getLevelRaises = false)
    (hs : e.setLevelRaises = false) :
    Teams3Mute.increase_volume e =
      ({ e with level := (Teams3Mute._percent_to_scalar
          (min 100 (Teams3Mute._scalar_to_percent e.level +
            Teams3Mute.STEP_PERCENT))) },
        some (min 100 (Teams3Mute._scalar_to_percent e.level +
          Teams3Mute.STEP_PERCENT))) := by
  simp [Teams3Mute.increase_volume, Endpoint.GetMasterVolumeLevelScalar,
    Endpoint.SetMasterVolumeLevelScalar, hg, hs]

lemma _scalar_to_percent_nonneg (s : ℚ) : 0 ≤ Teams3Mute._scalar_to_percent s :=
  le_max_left 0 _

lemma _percent_to_scalar_mul_100 (p : ℚ) (h0 : 0 ≤ p) (h1 : p ≤ 100) :
    Teams3Mute._percent_to_scalar p * 100 = p := by
  unfold Teams3Mute._percent_to_scalar
  rw [min_eq_right (by linarith), max_eq_right (by positivity)]
  exact div_mul_cancel₀ p (by norm_num)

/-- Exact level after n key steps from level 0 on a working backend: while
n stays at most 20 the clamp never engages and the level is n/20. -/
lemma keySteps_volume_exact (n : Nat) (hn : n ≤ 20) :
    (keySteps ⟨0, false⟩ (.real { level := 0, muted := false }) n).1.volume_scalar
      = (n : ℚ) / 20 := by
  induction n with
  | zero => norm_num [keySteps]
  | succ m ih =>
    have hm20 : m ≤ 20 := Nat.le_of_succ_le hn
    have hm1 : (m : ℚ) + 1 ≤ 20 := by exact_mod_cast hn
    simp only [keySteps]
    rw [update_volume_from_key_volume, ih hm20]
    have hstep : (m : ℚ) / 20 + VOLUME_STEP = ((m : ℚ) + 1) / 20 := by
      rw [show VOLUME_STEP = (5/100 : ℚ) from rfl]; ring
    rw [hstep, min_eq_right (by linarith : ((m:ℚ)+1)/20 ≤ 1),
      max_eq_right (by positivity)]
    push_cast
    ring

/-- C5: toggling mute twice returns the cached mute flag to its original value
and neither call changes the cached level, so muting does not zero the cached
level; the hotkey toggle acting directly on the backend behaves the same way
when its two calls succeed. -/
theorem C5_toggle_mute_twice (w : VolumeControlWidget) (vi : VolumeInterface)
    (e : Endpoint) (hg : e.getMuteRaises = false) (hs : e.setMuteRaises = false) :
    ((toggle_mute (toggle_mute w vi).1 (toggle_mute w vi).2).1.is_muted =
        w.is_muted ∧
      (toggle_mute w vi).1.volume_scalar = w.volume_scalar ∧
      (toggle_mute (toggle_mute w vi).1 (toggle_mute w vi).2).1.volume_scalar =
        w.volume_scalar) ∧
    ((Teams3Mute.toggle_mute (Teams3Mute.toggle_mute e).1).1.muted = e.muted ∧
      (Teams3Mute.toggle_mute e).1.level = e.level ∧
      (Teams3Mute.toggle_mute (Teams3Mute.toggle_mute e).1).1.level = e.level) := by
  refine ⟨⟨Bool.not_not _, rfl, rfl⟩, ?_⟩
  have h1 := t3_toggle_mute_ok e hg hs
  have h2 := t3_toggle_mute_ok { e with muted := !e.muted } hg hs
  simp [h1, h2]

/-- C5 witness: the statement at cached state (0.4, muted) with the mock
interface and a working backend endpoint at (0.4, muted). -/
theorem C5_witness :
    (((toggle_mute (toggle_mute ⟨2/5, true⟩ .mock).1
          (toggle_mute ⟨2/5, true⟩ .mock).2).1.is_muted = true ∧
      (toggle_mute ⟨2/5, true⟩ .mock).1.volume_scalar = 2/5 ∧
      (toggle_mute (toggle_mute ⟨2/5, true⟩ .mock).1
          (toggle_mute ⟨2/5, true⟩ .mock).2).1.volume_scalar = 2/5) ∧
    ((Teams3Mute.toggle_mute
          (Teams3Mute.toggle_mute { level := 2/5, muted := true }).1).1.muted =
        true ∧
      (Teams3Mute.toggle_mute { level := 2/5, muted := true }).1.level = 2/5 ∧
      (Teams3Mute.toggle_mute
          (Teams3Mute.toggle_mute { level := 2/5, muted := true }).1).1.level =
        2/5)) :=
  C5_toggle_mute_twice ⟨2/5, true⟩ .mock { level := 2/5, muted := true } rfl rfl

/-- C6: starting from cached level 0.0 on a working backend, twenty +0.05
keyboard steps reach cached level exactly 1.0, and after any number of steps
the cached level never exceeds 1.0. -/
theorem C6_twenty_steps (k : Nat) :
    (keySteps ⟨0, false⟩ (.real { level := 0, muted := false }) 20).1.volume_scalar
      = 1 ∧
    (keySteps ⟨0, false⟩ (.real { level := 0, muted := false }) k).1.volume_scalar
      ≤ 1 := by
  constructor
  · rw [keySteps_volume_exact 20 le_rfl]
    norm_num
  · cases k with
    | zero => norm_num [keySteps]
    | succ n =>
      simp only [keySteps]
      rw [update_volume_from_key_volume]
      exact clamp01_le_one _

/-- C7 counterexample: the hotkey step reads the current backend level rather
than any cached level: two backends differing only in their level yield
written levels 0.25 and 0.85 respectively, so the operation depends on a
fresh backend read (the hotkey scripts keep no cached level at all). -/
theorem C7_counterexample :
    (Teams3Mute.increase_volume { level := 1/5, muted := false }).1.level = 1/4 ∧
    (Teams3Mute.increase_volume { level := 4/5, muted := false }).1.level =
      17/20 ∧
    (1/4 : ℚ) ≠ 17/20 := by
  refine ⟨?_, ?_, by norm_num⟩
  · rw [t3_increase_volume_ok { level := 1/5, muted := false } rfl rfl]
    norm_num [Teams3Mute._percent_to_scalar, Teams3Mute._scalar_to_percent,
      Teams3Mute.STEP_PERCENT, min_def, max_def]
  · rw [t3_increase_volume_ok { level := 4/5, muted := false } rfl rfl]
    norm_num [Teams3Mute._percent_to_scalar, Teams3Mute._scalar_to_percent,
      Teams3Mute.STEP_PERCENT, min_def, max_def]

/-- C7 (amended): the Kivy keyboard step reads the cached level, adds the
delta, clamps to [0,1] and writes the clamped value to both the cache and the
backend; the hotkey step keeps no cache: it reads the current backend level,
converts it to percent, adds the 5% step, clamps, and writes the converted
result back to the backend. -/
theorem C7_adjust_level_amended (w : VolumeControlWidget) (vi : VolumeInterface)
    (change_scalar : ℚ) (e e2 : Endpoint) (hs : e.setLevelRaises = false)
    (h2g : e2.getLevelRaises = false) (h2s : e2.setLevelRaises = false) :
    (update_volume_from_key w vi change_scalar).1.volume_scalar =
      max 0 (min 1 (w.volume_scalar + change_scalar)) ∧
    (update_volume_from_key w (.real e) change_scalar).2 =
      .real { e with level := max 0 (min 1 (w.volume_scalar + change_scalar)) } ∧
    Teams3Mute.increase_volume e2 =
      ({ e2 with level := (Teams3Mute._percent_to_scalar
          (min 100 (Teams3Mute._scalar_to_percent e2.level +
            Teams3Mute.STEP_PERCENT))) },
        some (min 100 (Teams3Mute._scalar_to_percent e2.level +
          Teams3Mute.STEP_PERCENT))) := by
  refine ⟨rfl, ?_, t3_increase_volume_ok e2 h2g h2s⟩
  show set_volume_scalar (.real e) _ = _
  rw [set_volume_scalar_real e _ hs]

/-- C7 witness: the amended statement at cached level 0.6, keyboard delta
+0.1, and a hotkey backend at level 0.2. -/
theorem C7_witness :
    ((update_volume_from_key ⟨3/5, false⟩ .mock (1/10)).1.volume_scalar =
      max 0 (min 1 ((3:ℚ)/5 + 1/10)) ∧
    (update_volume_from_key ⟨3/5, false⟩ (.real { level := 0, muted := false })
        (1/10)).2 =
      .real { level := max 0 (min 1 ((3:ℚ)/5 + 1/10)), muted := false } ∧
    Teams3Mute.increase_volume { level := 1/5, muted := false } =
      ({ level := (Teams3Mute._percent_to_scalar
          (min 100 (Teams3Mute._scalar_to_percent ((1:ℚ)/5) +
            Teams3Mute.STEP_PERCENT))), muted := false },
        some (min 100 (Teams3Mute._scalar_to_percent ((1:ℚ)/5) +
          Teams3Mute.STEP_PERCENT)))) :=
  C7_adjust_level_amended ⟨3/5, false⟩ .mock (1/10)
    { level := 0, muted := false } { level := 1/5, muted := false }
    rfl rfl rfl

/-- C8 counterexample: when the startup connection failed, cached_interface is
None and check_mic_status returns immediately: even with a healthy backend now
available it does not re-acquire the connection and performs no read, so the
connection is not transparently retried on the next call. -/
theorem C8_counterexample :
    Teams3Mic.check_mic_status ⟨none⟩ (some { level := 1/2, muted := false }) =
      (⟨none⟩, none) := rfl

/-- C8 (amended): no poll is fatal: failures are caught and polling continues;
when a read on a live cached interface raises and a device is available, the
connection is re-acquired so that the following poll succeeds; but when no
interface is cached (startup acquisition failed) the poll returns immediately
and never retries the connection. -/
theorem C8_retry_amended (vol e : Endpoint) (h : vol.getLevelRaises = true)
    (he1 : e.getLevelRaises = false) (he2 : e.getMuteRaises = false) :
    Teams3Mic.check_mic_status ⟨some vol⟩ (some e) = (⟨some e⟩, none) ∧
    Teams3Mic.check_mic_status ⟨some e⟩ (some e) =
      (⟨some e⟩, some (Teams3Mic._scalar_to_percent e.level, e.muted)) ∧
    (∀ default_capture, Teams3Mic.check_mic_status ⟨none⟩ default_capture =
      (⟨none⟩, none)) := by
  refine ⟨?_, ?_, fun _ => rfl⟩
  · simp [Teams3Mic.check_mic_status, Endpoint.GetMasterVolumeLevelScalar, h,
      Teams3Mic._get_new_interface]
  · cases hm : e.muted <;>
      simp [Teams3Mic.check_mic_status, Endpoint.GetMasterVolumeLevelScalar,
        Endpoint.GetMute, he1, he2, hm]

/-- C8 witness: the re-acquisition conjunct at a cached interface on which
every call raises and an available healthy device. -/
theorem C8_witness :
    Teams3Mic.check_mic_status ⟨some brokenEndpoint⟩
        (some { level := 3/5, muted := true }) =
      (⟨some { level := 3/5, muted := true }⟩, none) :=
  (C8_retry_amended brokenEndpoint { level := 3/5, muted := true }
    rfl rfl rfl).1

/-- C9: percent display values are derived from the stored scalar, which stays
the ground truth: the Kivy label shows the stored level times 100 rounded to
an integer, and the percent printed by the hotkey step, under the same .0f
rounding, equals the rounding of 100 times the scalar it wrote to the
backend. -/
theorem C9_percent_derived (l : ℚ) (e : Endpoint)
    (hg : e.getLevelRaises = false) (hs : e.setLevelRaises = false) :
    update_label l = round (l * 100) ∧
    (∀ p, (Teams3Mute.increase_volume e).2 = some p →
      round p = round ((Teams3Mute.increase_volume e).1.level * 100)) := by
  refine ⟨rfl, ?_⟩
  intro p hp
  rw [t3_increase_volume_ok e hg hs] at hp ⊢
  simp only [Option.some.injEq] at hp
  subst hp
  have h0 : (0:ℚ) ≤
      min 100 (Teams3Mute._scalar_to_percent e.level + Teams3Mute.STEP_PERCENT) :=
    le_min (by norm_num)
      (add_nonneg (_scalar_to_percent_nonneg _) (by norm_num [Teams3Mute.STEP_PERCENT]))
  have h100 :
      min 100 (Teams3Mute._scalar_to_percent e.level + Teams3Mute.STEP_PERCENT)
        ≤ 100 := min_le_left _ _
  simp only
  rw [_percent_to_scalar_mul_100 _ h0 h100]

/-- C9 witness: the hotkey conjunct at a working backend of level 0.2: the
printed percent 25 rounds to the same integer as 100 times the written
scalar. -/
theorem C9_witness :
    round (min 100 (Teams3Mute._scalar_to_percent ((1:ℚ)/5) +
        Teams3Mute.STEP_PERCENT)) =
      round ((Teams3Mute.increase_volume { level := 1/5, muted := false }).1.level
        * 100) :=
  (C9_percent_derived (1/2) { level := 1/5, muted := false } rfl rfl).2
    (min 100 (Teams3Mute._scalar_to_percent ((1:ℚ)/5) + Teams3Mute.STEP_PERCENT))
    (congrArg Prod.snd
      (t3_increase_volume_ok { level := 1/5, muted := false } rfl rfl))

end VolumeRepo
